import Mathlib

/-!
Shallow embedding of src/piwheels/master/the_oracle.py: the TheOracle
RPC worker task and the DbClient RPC stub. Python values travelling over
the wire are modelled by the inductive Value; the external Database
collaborator is a record of fallible methods (a raised exception is
modelled as Except.error carrying the description string, mirroring
str(exc)); each socket interaction of the worker is recorded as an Event
so that reply cardinality, routing-address echoing and logging behaviour
can be stated as theorems about event traces.
-/

namespace Oracle

/-- Python values carried in request args and reply payloads. A build
record (states.py, outside this module) is abstracted as a constructor
carrying its build_id field and an opaque description of its remaining
content. -/
inductive Value where
  | none
  | bool (b : Bool)
  | int (n : Int)
  | str (s : String)
  | list (xs : List Value)
  | tuple (xs : List Value)
  | set (xs : List Value)
  | buildRec (bid : Value) (info : String)

/-- Reading the build_id attribute of a value, as in `return build.build_id`
in TheOracle.do_logbuild; on anything but a build record this is an
AttributeError. -/
def build_id_of : Value → Except String Value
  | Value.buildRec bid _ => Except.ok bid
  | _ => Except.error "AttributeError: build_id"

/-- Modelled from the spec: the build record's `logged` method records the
generated identifier on the record (the mutation of the DbClient.log_build
caller's argument; states.py is not under src). -/
def value_logged : Value → Value → Value
  | Value.buildRec _ info, bid => Value.buildRec bid info
  | v, _ => v

/-- Python list(...) applied to an iterable result, as in do_pkgfiles and
friends. -/
def pyList : Value → Except String Value
  | Value.list xs => Except.ok (Value.list xs)
  | Value.tuple xs => Except.ok (Value.list xs)
  | Value.set xs => Except.ok (Value.list xs)
  | _ => Except.error "TypeError: object is not iterable"

/-- Python set(...) applied to an iterable result, as in do_verfiles. -/
def pySet : Value → Except String Value
  | Value.list xs => Except.ok (Value.set xs)
  | Value.tuple xs => Except.ok (Value.set xs)
  | Value.set xs => Except.ok (Value.set xs)
  | _ => Except.error "TypeError: object is not iterable"

/-- Python str(...) of a value, used for the message carried by a raised
IOError; only the string case is exercised by the RPC layer (ERROR
payloads are strings). -/
def pyStr : Value → String
  | Value.none => "None"
  | Value.bool b => if b then "True" else "False"
  | Value.int n => toString n
  | Value.str s => s
  | _ => "<value>"

/-- The external Database collaborator (db.py, outside this module): one
fallible function per method called by TheOracle's handlers. An exception
raised by a method is Except.error carrying str(exc); log_build returns
the build record as left by the store call (the store records the
generated identifier on it); get_statistics returns the mapping's items
as ordered (field, value) pairs. -/
structure Database where
  get_all_packages : Except String Value
  get_all_package_versions : Except String Value
  add_new_package : Value → Except String Value
  add_new_package_version : Value → Value → Value → Value → Except String Value
  skip_package : Value → Value → Except String Value
  skip_package_version : Value → Value → Value → Except String Value
  log_download : Value → Except String Value
  log_build : Value → Except String Value
  delete_build : Value → Value → Except String Value
  get_package_files : Value → Except String Value
  get_project_versions : Value → Except String Value
  get_project_files : Value → Except String Value
  get_version_files : Value → Value → Except String Value
  get_version_skip : Value → Value → Except String Value
  test_package_version : Value → Value → Except String Value
  get_build_abis : Except String Value
  get_pypi_serial : Except String Value
  set_pypi_serial : Value → Except String Value
  get_statistics : Except String (List (String × Value))
  get_downloads_recent : Except String Value
  get_file_dependencies : Value → Except String Value

/-- One call into the Database collaborator, with its arguments, recorded
so that theorems can speak about which store operations a handler
performed. -/
inductive DbCall where
  | get_all_packages
  | get_all_package_versions
  | add_new_package (package : Value)
  | add_new_package_version (package version released skip : Value)
  | skip_package (package reason : Value)
  | skip_package_version (package version reason : Value)
  | log_download (download : Value)
  | log_build (build : Value)
  | delete_build (package version : Value)
  | get_package_files (package : Value)
  | get_project_versions (package : Value)
  | get_project_files (package : Value)
  | get_version_files (package version : Value)
  | get_version_skip (package version : Value)
  | test_package_version (package version : Value)
  | get_build_abis
  | get_pypi_serial
  | set_pypi_serial (serial : Value)
  | get_statistics
  | get_downloads_recent
  | get_file_dependencies (filename : Value)

/-- Result of running one handler body: the store calls it performed and
its returned value or the description of the exception it raised. -/
abbrev HandlerOut := List DbCall × Except String Value

/-- Message text of the TypeError raised by `handler(*data)` when the
argument sequence does not match the handler's signature. -/
def arityError (fn : String) : String :=
  "TypeError: " ++ fn ++ "() received an unexpected number of arguments"

/-- Encoding of Database.get_statistics().items() as a wire value: a list
of (field, value) tuples, as returned by do_getstats. -/
def statsItemsValue (pairs : List (String × Value)) : Value :=
  Value.list (pairs.map (fun kv => Value.tuple [Value.str kv.1, kv.2]))

/-- Handler for the ALLPKGS message (TheOracle.do_allpkgs). -/
def do_allpkgs (db : Database) : List Value → HandlerOut
  | [] => ([DbCall.get_all_packages], db.get_all_packages)
  | _ => ([], Except.error (arityError "do_allpkgs"))

/-- Handler for the ALLVERS message (TheOracle.do_allvers). -/
def do_allvers (db : Database) : List Value → HandlerOut
  | [] => ([DbCall.get_all_package_versions], db.get_all_package_versions)
  | _ => ([], Except.error (arityError "do_allvers"))

/-- Handler for the NEWPKG message (TheOracle.do_newpkg): the skip
argument is accepted but not passed on to the store. -/
def do_newpkg (db : Database) : List Value → HandlerOut
  | [package, _skip] => ([DbCall.add_new_package package], db.add_new_package package)
  | _ => ([], Except.error (arityError "do_newpkg"))

/-- Handler for the NEWVER message (TheOracle.do_newver). -/
def do_newver (db : Database) : List Value → HandlerOut
  | [package, version, released, skip] =>
      ([DbCall.add_new_package_version package version released skip],
       db.add_new_package_version package version released skip)
  | _ => ([], Except.error (arityError "do_newver"))

/-- Handler for the SKIPPKG message (TheOracle.do_skippkg); the handler
body returns None. -/
def do_skippkg (db : Database) : List Value → HandlerOut
  | [package, reason] =>
      ([DbCall.skip_package package reason],
       (db.skip_package package reason).map (fun _ => Value.none))
  | _ => ([], Except.error (arityError "do_skippkg"))

/-- Handler for the SKIPVER message (TheOracle.do_skipver); the handler
body returns None. -/
def do_skipver (db : Database) : List Value → HandlerOut
  | [package, version, reason] =>
      ([DbCall.skip_package_version package version reason],
       (db.skip_package_version package version reason).map (fun _ => Value.none))
  | _ => ([], Except.error (arityError "do_skipver"))

/-- Handler for the LOGDOWNLOAD message (TheOracle.do_logdownload); the
handler body returns None. -/
def do_logdownload (db : Database) : List Value → HandlerOut
  | [download] =>
      ([DbCall.log_download download],
       (db.log_download download).map (fun _ => Value.none))
  | _ => ([], Except.error (arityError "do_logdownload"))

/-- Handler for the LOGBUILD message (TheOracle.do_logbuild): calls the
store, then returns the build record's build_id field. -/
def do_logbuild (db : Database) : List Value → HandlerOut
  | [build] =>
      ([DbCall.log_build build],
       (db.log_build build).bind (fun b => build_id_of b))
  | _ => ([], Except.error (arityError "do_logbuild"))

/-- Handler for the DELBUILD message (TheOracle.do_delbuild); the handler
body returns None. -/
def do_delbuild (db : Database) : List Value → HandlerOut
  | [package, version] =>
      ([DbCall.delete_build package version],
       (db.delete_build package version).map (fun _ => Value.none))
  | _ => ([], Except.error (arityError "do_delbuild"))

/-- Handler for the PKGFILES message (TheOracle.do_pkgfiles). -/
def do_pkgfiles (db : Database) : List Value → HandlerOut
  | [package] =>
      ([DbCall.get_package_files package],
       (db.get_package_files package).bind pyList)
  | _ => ([], Except.error (arityError "do_pkgfiles"))

/-- Handler for the PROJVERS message (TheOracle.do_projvers). -/
def do_projvers (db : Database) : List Value → HandlerOut
  | [package] =>
      ([DbCall.get_project_versions package],
       (db.get_project_versions package).bind pyList)
  | _ => ([], Except.error (arityError "do_projvers"))

/-- Handler for the PROJFILES message (TheOracle.do_projfiles). -/
def do_projfiles (db : Database) : List Value → HandlerOut
  | [package] =>
      ([DbCall.get_project_files package],
       (db.get_project_files package).bind pyList)
  | _ => ([], Except.error (arityError "do_projfiles"))

/-- Handler for the VERFILES message (TheOracle.do_verfiles). -/
def do_verfiles (db : Database) : List Value → HandlerOut
  | [package, version] =>
      ([DbCall.get_version_files package version],
       (db.get_version_files package version).bind pySet)
  | _ => ([], Except.error (arityError "do_verfiles"))

/-- Handler for the GETSKIP message (TheOracle.do_getskip). -/
def do_getskip (db : Database) : List Value → HandlerOut
  | [package, version] =>
      ([DbCall.get_version_skip package version], db.get_version_skip package version)
  | _ => ([], Except.error (arityError "do_getskip"))

/-- Handler for the PKGEXISTS message (TheOracle.do_pkgexists). -/
def do_pkgexists (db : Database) : List Value → HandlerOut
  | [package, version] =>
      ([DbCall.test_package_version package version],
       db.test_package_version package version)
  | _ => ([], Except.error (arityError "do_pkgexists"))

/-- Handler for the GETABIS message (TheOracle.do_getabis). -/
def do_getabis (db : Database) : List Value → HandlerOut
  | [] => ([DbCall.get_build_abis], db.get_build_abis)
  | _ => ([], Except.error (arityError "do_getabis"))

/-- Handler for the GETPYPI message (TheOracle.do_getpypi). -/
def do_getpypi (db : Database) : List Value → HandlerOut
  | [] => ([DbCall.get_pypi_serial], db.get_pypi_serial)
  | _ => ([], Except.error (arityError "do_getpypi"))

/-- Handler for the SETPYPI message (TheOracle.do_setpypi); the handler
body returns None. -/
def do_setpypi (db : Database) : List Value → HandlerOut
  | [serial] =>
      ([DbCall.set_pypi_serial serial],
       (db.set_pypi_serial serial).map (fun _ => Value.none))
  | _ => ([], Except.error (arityError "do_setpypi"))

/-- Handler for the GETSTATS message (TheOracle.do_getstats): returns the
statistics mapping's items as a list of (field, value) tuples. -/
def do_getstats (db : Database) : List Value → HandlerOut
  | [] => ([DbCall.get_statistics], db.get_statistics.map statsItemsValue)
  | _ => ([], Except.error (arityError "do_getstats"))

/-- Handler for the GETDL message (TheOracle.do_getdl). -/
def do_getdl (db : Database) : List Value → HandlerOut
  | [] => ([DbCall.get_downloads_recent], db.get_downloads_recent)
  | _ => ([], Except.error (arityError "do_getdl"))

/-- Handler for the FILEDEPS message (TheOracle.do_filedeps). -/
def do_filedeps (db : Database) : List Value → HandlerOut
  | [filename] =>
      ([DbCall.get_file_dependencies filename], db.get_file_dependencies filename)
  | _ => ([], Except.error (arityError "do_filedeps"))

/-- The dispatch dictionary of TheOracle.handle_db_request: exact-name
lookup of the handler bound to a message, None on a missing key. -/
def lookup_handler : String → Option (Database → List Value → HandlerOut)
  | "ALLPKGS" => some do_allpkgs
  | "ALLVERS" => some do_allvers
  | "NEWPKG" => some do_newpkg
  | "NEWVER" => some do_newver
  | "SKIPPKG" => some do_skippkg
  | "SKIPVER" => some do_skipver
  | "LOGDOWNLOAD" => some do_logdownload
  | "LOGBUILD" => some do_logbuild
  | "DELBUILD" => some do_delbuild
  | "PKGFILES" => some do_pkgfiles
  | "PROJVERS" => some do_projvers
  | "PROJFILES" => some do_projfiles
  | "VERFILES" => some do_verfiles
  | "GETSKIP" => some do_getskip
  | "PKGEXISTS" => some do_pkgexists
  | "GETABIS" => some do_getabis
  | "GETPYPI" => some do_getpypi
  | "SETPYPI" => some do_setpypi
  | "GETSTATS" => some do_getstats
  | "GETDL" => some do_getdl
  | "FILEDEPS" => some do_filedeps
  | _ => Option.none

/-- Outcome of `queue.recv_multipart()` at the top of handle_db_request:
either an IOError (malformed multipart message or transport failure), or
a routing address, a message name and the decoded argument sequence. -/
inductive RecvResult where
  | ioError (e : String)
  | ok (address : List Nat) (msg : String) (data : List Value)

/-- Observable actions of a worker, in the order it performs them:
startup actions of TheOracle's constructor, logging, store calls, the
raw READY frame, and reply envelopes sent with send_addr_msg. -/
inductive Event where
  | openDb (dsn : String)
  | setHwm (n : Nat)
  | connectQueue (addr : String)
  | registerHandler
  | sendFrame (frame : String)
  | logException (e : String)
  | logError (s : String)
  | dbCall (c : DbCall)
  | reply (address : List Nat) (status : String) (payload : Value)

/-- Message text of str(KeyError(msg)), raised by the dispatch dictionary
lookup on an unknown message name: Python renders the missing key in
quotes. -/
def keyErrorStr (msg : String) : String := "\x27" ++ msg ++ "\x27"

/-- Text passed to logger.error in the except branch of
handle_db_request. -/
def handlerLogText (msg : String) : String := "Error handling db request: " ++ msg

/-- One pass of TheOracle.handle_db_request: receive, dispatch by exact
name, run the handler, convert success to an OK reply and any raised
exception (unknown message name included) to an ERROR reply carrying
str(exc), echoing the received routing address; a failed receive is only
logged and nothing is sent. -/
def handle_db_request (db : Database) : RecvResult → List Event
  | RecvResult.ioError e => [Event.logException e]
  | RecvResult.ok address msg data =>
    match lookup_handler msg with
    | Option.none =>
        [Event.logError (handlerLogText msg),
         Event.reply address "ERROR" (Value.str (keyErrorStr msg))]
    | Option.some h =>
      match h db data with
      | (calls, Except.ok result) =>
          List.map Event.dbCall calls ++ [Event.reply address "OK" result]
      | (calls, Except.error e) =>
          List.map Event.dbCall calls ++
            [Event.logError (handlerLogText msg),
             Event.reply address "ERROR" (Value.str e)]

/-- The worker's serving loop: handle each received envelope in arrival
order, one at a time. -/
def worker_loop (db : Database) : List RecvResult → List Event
  | [] => []
  | r :: rs => handle_db_request db r ++ worker_loop db rs

/-- Projection selecting a reply envelope from a worker event. -/
def replyOf : Event → Option (List Nat × String × Value)
  | Event.reply a s p => Option.some (a, s, p)
  | _ => Option.none

/-- Reply envelopes contained in a worker event trace, in emission
order. -/
def repliesOf (es : List Event) : List (List Nat × String × Value) :=
  es.filterMap replyOf

/-- Store calls contained in a worker event trace, in call order. -/
def dbCallsOf (es : List Event) : List DbCall :=
  es.filterMap (fun e => match e with
    | Event.dbCall c => Option.some c
    | _ => Option.none)

/-- Raw frames (the READY advertisement channel) contained in a worker
event trace. -/
def framesOf (es : List Event) : List String :=
  es.filterMap (fun e => match e with
    | Event.sendFrame f => Option.some f
    | _ => Option.none)

/-- Modelled from the spec: the broker's known shared queue address
(const.ORACLE_QUEUE; const.py is not under src). Its concrete value is
immaterial to every property below. -/
def ORACLE_QUEUE : String := "inproc://db"

/-- Class attribute TheOracle.name: the fixed base name of every worker
instance. -/
def theOracleBaseName : String := "master.the_oracle"

/-- Identity given to a worker at construction: the fixed base name
together with the incremented class-level instance counter; the code
renders it as the string base_instanceNumber. -/
structure WorkerIdentity where
  baseName : String
  instanceNumber : Nat
  deriving DecidableEq

/-- Rendering of the identity exactly as the constructor's format string
base_instanceNumber builds self.name. -/
def workerName (w : WorkerIdentity) : String :=
  w.baseName ++ "_" ++ toString w.instanceNumber

/-- Actions of TheOracle's constructor after the naming step, in program
order: open the exclusive store connection, create the REQ socket with
hwm 10, connect to the shared queue address, register the handler, send
the raw single-frame READY advertisement. -/
def oracle_init_events (dsn : String) : List Event :=
  [Event.openDb dsn, Event.setHwm 10, Event.connectQueue ORACLE_QUEUE,
   Event.registerHandler, Event.sendFrame "READY"]

/-- One construction of TheOracle against the class counter: increment
the counter, take the incremented value as the instance number, perform
the startup actions. -/
def oracle_construct (ctr : Nat) (dsn : String) :
    Nat × WorkerIdentity × List Event :=
  (ctr + 1, ⟨theOracleBaseName, ctr + 1⟩, oracle_init_events dsn)

/-- Identities handed out by n successive constructions in one process,
starting from class counter ctr. -/
def construct_from (ctr : Nat) (dsn : String) : Nat → List WorkerIdentity
  | 0 => []
  | Nat.succ n =>
      (oracle_construct ctr dsn).2.1 :: construct_from (oracle_construct ctr dsn).1 dsn n

/-- A whole worker lifetime: the constructor's actions followed by the
serving loop over whatever envelopes arrive. -/
def worker_events (dsn : String) (db : Database) (recvs : List RecvResult) :
    List Event :=
  oracle_init_events dsn ++ worker_loop db recvs

/-- Observable actions of the DbClient side of one _execute call. -/
inductive ClientEvent where
  | sentMsg (msg : String) (data : Value)
  | recvMsg (status : String) (result : Value)

/-- Failures DbClient._execute raises to its caller: zmq EAGAIN from the
non-blocking send, or the IOError built from an ERROR reply's payload. -/
inductive ClientFailure where
  | again
  | ioError (payload : Value)

/-- Message carried by a failure raised to the DbClient caller; for an
IOError built from an ERROR reply this is the reply's payload string. -/
def failureMessage : ClientFailure → String
  | ClientFailure.again => "Resource temporarily unavailable"
  | ClientFailure.ioError v => pyStr v

/-- DbClient._execute: send the message without blocking (EAGAIN raised
at once if the transport cannot accept it, nothing sent, no retry), then
block for the reply; an OK status returns the payload, anything else
raises IOError(payload). canSend states whether the transport accepts
the send immediately; reply is what the blocking receive returns. -/
def execute (canSend : Bool) (reply : String × Value) (msg : String)
    (data : Value) : List ClientEvent × Except ClientFailure Value :=
  if canSend then
    let trace := [ClientEvent.sentMsg msg data,
                  ClientEvent.recvMsg reply.1 reply.2]
    if reply.1 = "OK" then (trace, Except.ok reply.2)
    else (trace, Except.error (ClientFailure.ioError reply.2))
  else ([], Except.error ClientFailure.again)

/-- DbClient.add_new_package: one _execute of NEWPKG with the argument
list package, skip. -/
def dbClient_add_new_package (canSend : Bool) (reply : String × Value)
    (package skip : Value) : List ClientEvent × Except ClientFailure Value :=
  execute canSend reply "NEWPKG" (Value.list [package, skip])

/-- Effects DbClient.log_build applies to its caller's build argument. -/
inductive ClientEffect where
  | buildLogged (bid : Value)

/-- DbClient.log_build: one _execute of LOGBUILD with the build record as
sole argument; on success the record's logged method is invoked with the
returned identifier (mutating the caller's argument) and nothing is
returned; a raised failure propagates before logged is reached. The
result quadruple is the client trace, the logged invocations, the build
record as the caller sees it afterwards, and the call's outcome. -/
def dbClient_log_build (canSend : Bool) (reply : String × Value)
    (build : Value) :
    List ClientEvent × List ClientEffect × Value × Except ClientFailure Unit :=
  match execute canSend reply "LOGBUILD" (Value.list [build]) with
  | (trace, Except.ok bid) =>
      (trace, [ClientEffect.buildLogged bid], value_logged build bid,
       Except.ok ())
  | (trace, Except.error f) => (trace, [], build, Except.error f)

/-- Lookup in the dict comprehension built from the GETSTATS reply pairs:
a later pair with the same field name overwrites an earlier one. -/
def dictGet (rec : List (String × Value)) (k : String) : Value :=
  ((rec.reverse).lookup k).getD Value.none

/-- Check performed by calling the memoized namedtuple with the reply
dict as keyword arguments: the dict's key set must be exactly the field
set. -/
def kwMatch (fields : List String) (rec : List (String × Value)) : Bool :=
  fields.all (fun f => (rec.map Prod.fst).contains f) &&
    (rec.map Prod.fst).all (fun k => fields.contains k)

/-- Constructing the namedtuple type Statistics from the first reply's
field names; Python raises ValueError on duplicate field names. -/
def namedtupleMake (fields : List String) : Except String (List String) :=
  if fields.Nodup then Except.ok fields
  else Except.error "ValueError: duplicate field names"

/-- Instantiating the memoized namedtuple type with the reply dict: on a
field-set match the structure pairs each field, in pinned order, with its
value from the dict. -/
def namedtupleCall (fields : List String) (rec : List (String × Value)) :
    Except String (List (String × Value)) :=
  if kwMatch fields rec then
    Except.ok (fields.map (fun f => (f, dictGet rec f)))
  else Except.error "TypeError: field mismatch in keyword arguments"

/-- DbClient.get_statistics after its _execute returned rec (the reply's
(field, value) pairs): when the class-level stats_type is still None it
is assigned a namedtuple built from this reply's field names, otherwise
the stored type is used as is; the call returns the instantiated
structure. The first component is the class attribute DbClient.stats_type
after the call (shared by all instances of the class). -/
def get_statistics_call (statsType : Option (List String))
    (rec : List (String × Value)) :
    Option (List String) × Except String (List (String × Value)) :=
  match statsType with
  | Option.some fields => (Option.some fields, namedtupleCall fields rec)
  | Option.none =>
    match namedtupleMake (rec.map Prod.fst) with
    | Except.error e => (Option.none, Except.error e)
    | Except.ok fields => (Option.some fields, namedtupleCall fields rec)

/-- A stub store whose every method succeeds with None. -/
def dbStub : Database where
  get_all_packages := Except.ok Value.none
  get_all_package_versions := Except.ok Value.none
  add_new_package := fun _ => Except.ok Value.none
  add_new_package_version := fun _ _ _ _ => Except.ok Value.none
  skip_package := fun _ _ => Except.ok Value.none
  skip_package_version := fun _ _ _ => Except.ok Value.none
  log_download := fun _ => Except.ok Value.none
  log_build := fun b => Except.ok b
  delete_build := fun _ _ => Except.ok Value.none
  get_package_files := fun _ => Except.ok (Value.list [])
  get_project_versions := fun _ => Except.ok (Value.list [])
  get_project_files := fun _ => Except.ok (Value.list [])
  get_version_files := fun _ _ => Except.ok (Value.list [])
  get_version_skip := fun _ _ => Except.ok Value.none
  test_package_version := fun _ _ => Except.ok (Value.bool false)
  get_build_abis := Except.ok (Value.list [])
  get_pypi_serial := Except.ok (Value.int 0)
  set_pypi_serial := fun _ => Except.ok Value.none
  get_statistics := Except.ok []
  get_downloads_recent := Except.ok (Value.list [])
  get_file_dependencies := fun _ => Except.ok Value.none

/-- A store whose every method raises an exception described by e. -/
def dbRaising (e : String) : Database where
  get_all_packages := Except.error e
  get_all_package_versions := Except.error e
  add_new_package := fun _ => Except.error e
  add_new_package_version := fun _ _ _ _ => Except.error e
  skip_package := fun _ _ => Except.error e
  skip_package_version := fun _ _ _ => Except.error e
  log_download := fun _ => Except.error e
  log_build := fun _ => Except.error e
  delete_build := fun _ _ => Except.error e
  get_package_files := fun _ => Except.error e
  get_project_versions := fun _ => Except.error e
  get_project_files := fun _ => Except.error e
  get_version_files := fun _ _ => Except.error e
  get_version_skip := fun _ _ => Except.error e
  test_package_version := fun _ _ => Except.error e
  get_build_abis := Except.error e
  get_pypi_serial := Except.error e
  set_pypi_serial := fun _ => Except.error e
  get_statistics := Except.error e
  get_downloads_recent := Except.error e
  get_file_dependencies := fun _ => Except.error e

/-- A store whose log_build records the generated identifier 1234 on the
build record and succeeds. -/
def dbLogBuild : Database :=
  { dbStub with log_build := fun b => Except.ok (value_logged b (Value.int 1234)) }

theorem repliesOf_nil : repliesOf [] = [] := rfl

theorem repliesOf_append (xs ys : List Event) :
    repliesOf (xs ++ ys) = repliesOf xs ++ repliesOf ys := by
  simp [repliesOf]

theorem repliesOf_cons_dbCall (c : DbCall) (es : List Event) :
    repliesOf (Event.dbCall c :: es) = repliesOf es := rfl

theorem repliesOf_map_dbCall (cs : List DbCall) :
    repliesOf (List.map Event.dbCall cs) = [] := by
  induction cs with
  | nil => rfl
  | cons c cs ih => rw [List.map_cons, repliesOf_cons_dbCall, ih]

theorem framesOf_append (xs ys : List Event) :
    framesOf (xs ++ ys) = framesOf xs ++ framesOf ys := by
  simp [framesOf]

theorem framesOf_cons_dbCall (c : DbCall) (es : List Event) :
    framesOf (Event.dbCall c :: es) = framesOf es := rfl

theorem framesOf_map_dbCall (cs : List DbCall) :
    framesOf (List.map Event.dbCall cs) = [] := by
  induction cs with
  | nil => rfl
  | cons c cs ih => rw [List.map_cons, framesOf_cons_dbCall, ih]

theorem dbCallsOf_append (xs ys : List Event) :
    dbCallsOf (xs ++ ys) = dbCallsOf xs ++ dbCallsOf ys := by
  simp [dbCallsOf]

theorem dbCallsOf_cons_dbCall (c : DbCall) (es : List Event) :
    dbCallsOf (Event.dbCall c :: es) = c :: dbCallsOf es := rfl

theorem dbCallsOf_map_dbCall (cs : List DbCall) :
    dbCallsOf (List.map Event.dbCall cs) = cs := by
  induction cs with
  | nil => rfl
  | cons c cs ih => rw [List.map_cons, dbCallsOf_cons_dbCall, ih]

/-- Every successfully received request yields a single reply envelope
carrying the request's routing address, whatever the dispatch outcome. -/
theorem replies_handle_ok (db : Database) (a : List Nat) (m : String)
    (d : List Value) :
    ∃ s p, repliesOf (handle_db_request db (RecvResult.ok a m d)) = [(a, s, p)] := by
  cases hl : lookup_handler m with
  | none =>
      exact ⟨"ERROR", Value.str (keyErrorStr m), by
        simp [handle_db_request, hl, repliesOf, List.filterMap_cons, replyOf]⟩
  | some h =>
      rcases hout : h db d with ⟨calls, res⟩
      cases res with
      | ok r =>
          refine ⟨"OK", r, ?_⟩
          simp only [handle_db_request, hl, hout]
          rw [repliesOf_append, repliesOf_map_dbCall]
          simp [repliesOf, List.filterMap_cons, replyOf]
      | error e =>
          refine ⟨"ERROR", Value.str e, ?_⟩
          simp only [handle_db_request, hl, hout]
          rw [repliesOf_append, repliesOf_map_dbCall]
          simp [repliesOf, List.filterMap_cons, replyOf]

/-- No step of the serving loop ever emits a raw frame; READY is sent by
the constructor alone. -/
theorem framesOf_handle (db : Database) (r : RecvResult) :
    framesOf (handle_db_request db r) = [] := by
  cases r with
  | ioError e => rfl
  | ok a m d =>
      cases hl : lookup_handler m with
      | none => simp [handle_db_request, hl, framesOf, List.filterMap_cons]
      | some h =>
          rcases hout : h db d with ⟨calls, res⟩
          cases res with
          | ok v =>
              simp only [handle_db_request, hl, hout]
              rw [framesOf_append, framesOf_map_dbCall]
              simp [framesOf, List.filterMap_cons]
          | error e =>
              simp only [handle_db_request, hl, hout]
              rw [framesOf_append, framesOf_map_dbCall]
              simp [framesOf, List.filterMap_cons]

theorem framesOf_worker_loop (db : Database) (recvs : List RecvResult) :
    framesOf (worker_loop db recvs) = [] := by
  induction recvs with
  | nil => rfl
  | cons r rs ih =>
      simp [worker_loop, framesOf_append, framesOf_handle, ih]

/-- C1: for every request envelope the worker's receive step successfully
parses into an address, an operation name and args, the handle step emits
exactly one reply envelope; that reply carries the routing address
extracted from the request unchanged, and it is emitted before the
worker's loop processes the next request — whether the handler succeeds,
raises, or the operation name is unknown. -/
theorem c1_reply_cardinality (db : Database) (a : List Nat) (m : String)
    (d : List Value) :
    ∃ s p,
      repliesOf (handle_db_request db (RecvResult.ok a m d)) = [(a, s, p)] ∧
      ∀ rs, repliesOf (worker_loop db (RecvResult.ok a m d :: rs)) =
        (a, s, p) :: repliesOf (worker_loop db rs) := by
  obtain ⟨s, p, hs⟩ := replies_handle_ok db a m d
  refine ⟨s, p, hs, fun rs => ?_⟩
  rw [worker_loop, repliesOf_append, hs]
  rfl

/-- C3: a successfully received request whose operation name has no entry
in the dispatch table is answered, not crashed on and not dropped: the
worker produces the same log-then-ERROR-reply shape as for a raised
domain failure, with the KeyError description as payload, and the client
receiving that reply raises IOError. -/
theorem c3_unknown_operation (db : Database) (a : List Nat) (m : String)
    (d : List Value) (h : lookup_handler m = Option.none) :
    handle_db_request db (RecvResult.ok a m d) =
      [Event.logError (handlerLogText m),
       Event.reply a "ERROR" (Value.str (keyErrorStr m))] ∧
    (execute true ("ERROR", Value.str (keyErrorStr m)) m (Value.list d)).2 =
      Except.error (ClientFailure.ioError (Value.str (keyErrorStr m))) := by
  exact ⟨by simp [handle_db_request, h], rfl⟩

/-- Witness for C3 at the spec's Scenario 4 input NOSUCHOP. -/
theorem c3_unknown_operation_witness :
    lookup_handler "NOSUCHOP" = Option.none ∧
    (handle_db_request dbStub (RecvResult.ok [7] "NOSUCHOP" []) =
      [Event.logError (handlerLogText "NOSUCHOP"),
       Event.reply [7] "ERROR" (Value.str (keyErrorStr "NOSUCHOP"))] ∧
    (execute true ("ERROR", Value.str (keyErrorStr "NOSUCHOP")) "NOSUCHOP"
        (Value.list [])).2 =
      Except.error (ClientFailure.ioError (Value.str (keyErrorStr "NOSUCHOP")))) :=
  ⟨rfl, c3_unknown_operation dbStub [7] "NOSUCHOP" [] rfl⟩

/-- C4: when the receive of the inbound envelope itself fails, the
failure is logged and nothing else happens: no reply is sent, no store
call is made, and the loop resumes with the next envelope; moreover a
failed receive is the only kind of handled receive step that produces
zero replies. -/
theorem c4_recv_failure (db : Database) (e : String) (rs : List RecvResult) :
    handle_db_request db (RecvResult.ioError e) = [Event.logException e] ∧
    worker_loop db (RecvResult.ioError e :: rs) =
      Event.logException e :: worker_loop db rs ∧
    (∀ r, repliesOf (handle_db_request db r) = [] ↔
      ∃ e2, r = RecvResult.ioError e2) := by
  refine ⟨rfl, rfl, fun r => ?_⟩
  cases r with
  | ioError e2 => simp [handle_db_request, repliesOf, List.filterMap_cons, replyOf]
  | ok a m d =>
      obtain ⟨s, p, hs⟩ := replies_handle_ok db a m d
      simp [hs]

/-- C5: the client's send is attempted without blocking — when the
transport cannot accept it the call fails at once with the EAGAIN
resource-exhaustion failure, performing no retry and handing nothing to
the transport — and only after a successful send does the client block
for the reply. -/
theorem c5_backpressure (reply : String × Value) (msg : String) (data : Value) :
    execute false reply msg data = ([], Except.error ClientFailure.again) ∧
    (execute true reply msg data).1 =
      [ClientEvent.sentMsg msg data, ClientEvent.recvMsg reply.1 reply.2] := by
  refine ⟨rfl, ?_⟩
  by_cases h : reply.1 = "OK" <;> simp [execute, h]

/-- C2 counterexample: the reply payload is str(exc) with no
non-emptiness guarantee — a store method raising an exception whose
description is the empty string yields an ERROR reply whose payload is
the empty string, against the claim that the payload is always a
non-empty string. -/
theorem c2_error_conversion_counterexample :
    repliesOf (handle_db_request (dbRaising "")
        (RecvResult.ok [0] "NEWPKG" [Value.str "foo", Value.none])) =
      [([0], "ERROR", Value.str "")] ∧
    ("" : String).length = 0 :=
  ⟨rfl, rfl⟩

/-- C2 (amended): if the store collaborator raises during the handler of
a recognized operation, the reply has status ERROR and carries exactly
the raised exception's description string (hence non-empty exactly when
that description is); the client call for the operation then raises an
IOError whose message equals that payload, the structured exception type
having been reduced to the string. -/
theorem c2_error_conversion (db : Database) (a : List Nat) (m : String)
    (d : List Value) (h : Database → List Value → HandlerOut) (e : String)
    (hh : lookup_handler m = Option.some h)
    (he : (h db d).2 = Except.error e) :
    repliesOf (handle_db_request db (RecvResult.ok a m d)) =
      [(a, "ERROR", Value.str e)] ∧
    (∀ msg data, (execute true ("ERROR", Value.str e) msg data).2 =
      Except.error (ClientFailure.ioError (Value.str e))) ∧
    failureMessage (ClientFailure.ioError (Value.str e)) = e := by
  refine ⟨?_, fun msg data => rfl, rfl⟩
  rcases hout : h db d with ⟨calls, res⟩
  rw [hout] at he
  simp only at he
  subst he
  simp only [handle_db_request, hh, hout]
  rw [repliesOf_append, repliesOf_map_dbCall]
  simp [repliesOf, List.filterMap_cons, replyOf]

/-- Witness for C2 at the spec's Scenario 2 input: a store raising
"duplicate build" during LOGBUILD. -/
theorem c2_error_conversion_witness :
    (lookup_handler "LOGBUILD" = Option.some do_logbuild ∧
     (do_logbuild (dbRaising "duplicate build")
        [Value.buildRec Value.none "b"]).2 =
       Except.error "duplicate build") ∧
    (repliesOf (handle_db_request (dbRaising "duplicate build")
        (RecvResult.ok [3] "LOGBUILD" [Value.buildRec Value.none "b"])) =
      [([3], "ERROR", Value.str "duplicate build")] ∧
    (∀ msg data,
      (execute true ("ERROR", Value.str "duplicate build") msg data).2 =
        Except.error (ClientFailure.ioError (Value.str "duplicate build"))) ∧
    failureMessage (ClientFailure.ioError (Value.str "duplicate build")) =
      "duplicate build") :=
  ⟨⟨rfl, rfl⟩,
   c2_error_conversion (dbRaising "duplicate build") [3] "LOGBUILD"
     [Value.buildRec Value.none "b"] do_logbuild "duplicate build" rfl rfl⟩

/-- C9: the client's add_new_package(package, skip) sends the skip value
on the wire in the NEWPKG argument list, but the NEWPKG handler discards
it: the worker's whole observable behaviour, including the single store
call add_new_package(package) and the reply the caller's result is built
from, is identical for any two skip values. -/
theorem c9_newpkg_skip_discarded (db : Database) (a : List Nat)
    (reply : String × Value) (package s1 s2 : Value) :
    (dbClient_add_new_package true reply package s1).1 =
      [ClientEvent.sentMsg "NEWPKG" (Value.list [package, s1]),
       ClientEvent.recvMsg reply.1 reply.2] ∧
    handle_db_request db (RecvResult.ok a "NEWPKG" [package, s1]) =
      handle_db_request db (RecvResult.ok a "NEWPKG" [package, s2]) ∧
    dbCallsOf (handle_db_request db (RecvResult.ok a "NEWPKG" [package, s1])) =
      [DbCall.add_new_package package] := by
  have hl : lookup_handler "NEWPKG" = Option.some do_newpkg := rfl
  refine ⟨?_, rfl, ?_⟩
  · by_cases h : reply.1 = "OK" <;> simp [dbClient_add_new_package, execute, h]
  · cases hr : db.add_new_package package with
    | ok v =>
        simp only [handle_db_request, hl, do_newpkg, hr]
        rfl
    | error e =>
        simp only [handle_db_request, hl, do_newpkg, hr]
        rfl

/-- C10: on a successful log-build the worker replies OK with the build
record's generated identifier (the build_id the store call left on the
record); the client receiving that reply invokes the caller's build
object's logged method with exactly that identifier, mutating the
caller's argument, and returns nothing; on an ERROR reply the logged
method is never invoked and the record is untouched. -/
theorem c10_log_build_logged (db : Database) (a : List Nat)
    (bid bid2 : Value) (info info2 : String)
    (h : db.log_build (Value.buildRec bid info) =
      Except.ok (Value.buildRec bid2 info2)) :
    repliesOf (handle_db_request db
        (RecvResult.ok a "LOGBUILD" [Value.buildRec bid info])) =
      [(a, "OK", bid2)] ∧
    (∀ build, dbClient_log_build true ("OK", bid2) build =
      ([ClientEvent.sentMsg "LOGBUILD" (Value.list [build]),
        ClientEvent.recvMsg "OK" bid2],
       [ClientEffect.buildLogged bid2], value_logged build bid2,
       Except.ok ())) ∧
    (∀ e build, dbClient_log_build true ("ERROR", e) build =
      ([ClientEvent.sentMsg "LOGBUILD" (Value.list [build]),
        ClientEvent.recvMsg "ERROR" e],
       [], build, Except.error (ClientFailure.ioError e))) := by
  have hl : lookup_handler "LOGBUILD" = Option.some do_logbuild := rfl
  refine ⟨?_, fun build => rfl, fun e build => rfl⟩
  simp only [handle_db_request, hl, do_logbuild, h]
  rfl

/-- Witness for C10: a store whose log-build records the identifier 1234
on the build record. -/
theorem c10_log_build_logged_witness :
    dbLogBuild.log_build (Value.buildRec Value.none "b") =
      Except.ok (Value.buildRec (Value.int 1234) "b") ∧
    (repliesOf (handle_db_request dbLogBuild
        (RecvResult.ok [5] "LOGBUILD" [Value.buildRec Value.none "b"])) =
      [([5], "OK", Value.int 1234)] ∧
    (∀ build, dbClient_log_build true ("OK", Value.int 1234) build =
      ([ClientEvent.sentMsg "LOGBUILD" (Value.list [build]),
        ClientEvent.recvMsg "OK" (Value.int 1234)],
       [ClientEffect.buildLogged (Value.int 1234)],
       value_logged build (Value.int 1234), Except.ok ())) ∧
    (∀ e build, dbClient_log_build true ("ERROR", e) build =
      ([ClientEvent.sentMsg "LOGBUILD" (Value.list [build]),
        ClientEvent.recvMsg "ERROR" e],
       [], build, Except.error (ClientFailure.ioError e)))) :=
  ⟨rfl, c10_log_build_logged dbLogBuild [5] Value.none (Value.int 1234)
    "b" "b" rfl⟩

/-- C7 counterexample: the single ready advertisement the constructor
sends is the raw frame READY — its content is the non-empty operation
literal "READY", not a bare message with an empty operation. -/
theorem c7_ready_advertisement_counterexample :
    framesOf (oracle_init_events "db-dsn") = ["READY"] ∧
    ("READY" : String) ≠ "" :=
  ⟨rfl, by decide⟩

/-- C7 (amended): on construction, after opening its exclusive store
connection and connecting to the shared queue address, the worker sends
exactly one ready advertisement before serving any request, and that
advertisement is the bare single-frame message READY carrying no
arguments and no payload. -/
theorem c7_ready_advertisement (dsn : String) (db : Database)
    (recvs : List RecvResult) :
    ∃ pre post,
      worker_events dsn db recvs = pre ++ Event.sendFrame "READY" :: post ∧
      Event.openDb dsn ∈ pre ∧
      Event.connectQueue ORACLE_QUEUE ∈ pre ∧
      repliesOf pre = [] ∧
      framesOf pre = [] ∧
      framesOf post = [] := by
  refine ⟨[Event.openDb dsn, Event.setHwm 10, Event.connectQueue ORACLE_QUEUE,
           Event.registerHandler], worker_loop db recvs, rfl, ?_, ?_, rfl, rfl,
         framesOf_worker_loop db recvs⟩
  · simp
  · simp

theorem construct_from_length (ctr : Nat) (dsn : String) (n : Nat) :
    (construct_from ctr dsn n).length = n := by
  induction n generalizing ctr with
  | zero => rfl
  | succ n ih => simp [construct_from, oracle_construct, ih]

theorem construct_from_getElem (ctr : Nat) (dsn : String) (n k : Nat)
    (hk : k < n) :
    (construct_from ctr dsn n)[k]? =
      Option.some ⟨theOracleBaseName, ctr + k + 1⟩ := by
  induction n generalizing ctr k with
  | zero => omega
  | succ n ih =>
      cases k with
      | zero => simp [construct_from, oracle_construct]
      | succ k =>
          have hk2 : k < n := by omega
          have := ih (ctr + 1) k hk2
          simp only [construct_from, oracle_construct, List.getElem?_cons_succ]
          rw [this]
          have harith : ctr + 1 + k + 1 = ctr + (k + 1) + 1 := by omega
          rw [harith]

/-- C8: each construction increments the class-level counter and names
the worker with the fixed base name and the incremented counter value, so
across any sequence of constructions in one process the instance numbers
strictly increase with construction order and no two workers receive the
same identity. -/
theorem c8_worker_identity_unique (ctr : Nat) (dsn : String)
    (n i j : Nat) (wi wj : WorkerIdentity) (hij : i < j)
    (hwi : (construct_from ctr dsn n)[i]? = Option.some wi)
    (hwj : (construct_from ctr dsn n)[j]? = Option.some wj) :
    wi.baseName = theOracleBaseName ∧
    wi.instanceNumber < wj.instanceNumber ∧
    wi ≠ wj := by
  have hi : i < n := by
    have := List.getElem?_eq_some.mp hwi
    rcases this with ⟨hlt, _⟩
    rwa [construct_from_length] at hlt
  have hj : j < n := by
    have := List.getElem?_eq_some.mp hwj
    rcases this with ⟨hlt, _⟩
    rwa [construct_from_length] at hlt
  rw [construct_from_getElem ctr dsn n i hi] at hwi
  rw [construct_from_getElem ctr dsn n j hj] at hwj
  have hwi4 : wi = ⟨theOracleBaseName, ctr + i + 1⟩ := (Option.some.inj hwi).symm
  have hwj4 : wj = ⟨theOracleBaseName, ctr + j + 1⟩ := (Option.some.inj hwj).symm
  subst hwi4
  subst hwj4
  refine ⟨rfl, by simp only; omega, ?_⟩
  intro hcontra
  rw [WorkerIdentity.mk.injEq] at hcontra
  omega

/-- Witness for C8: the first two workers constructed in a fresh process
get instance numbers 1 and 2 and distinct identities. -/
theorem c8_worker_identity_unique_witness :
    (0 : Nat) < 1 ∧
    (construct_from 0 "dsn" 2)[0]? =
      Option.some ⟨theOracleBaseName, 1⟩ ∧
    (construct_from 0 "dsn" 2)[1]? =
      Option.some ⟨theOracleBaseName, 2⟩ ∧
    ((⟨theOracleBaseName, 1⟩ : WorkerIdentity).baseName = theOracleBaseName ∧
     (⟨theOracleBaseName, 1⟩ : WorkerIdentity).instanceNumber <
       (⟨theOracleBaseName, 2⟩ : WorkerIdentity).instanceNumber ∧
     (⟨theOracleBaseName, 1⟩ : WorkerIdentity) ≠ ⟨theOracleBaseName, 2⟩) :=
  ⟨Nat.zero_lt_one, rfl, rfl,
   c8_worker_identity_unique 0 "dsn" 2 0 1 ⟨theOracleBaseName, 1⟩
     ⟨theOracleBaseName, 2⟩ Nat.zero_lt_one rfl rfl⟩

theorem lookup_eq_of_mem {rec : List (String × Value)} {k : String}
    {v : Value} (hnd : (rec.map Prod.fst).Nodup) (hm : (k, v) ∈ rec) :
    rec.lookup k = Option.some v := by
  induction rec with
  | nil => cases hm
  | cons p rest ih =>
      rcases p with ⟨k0, v0⟩
      rw [List.map_cons] at hnd
      have hnd2 := List.nodup_cons.mp hnd
      rcases List.mem_cons.mp hm with h | h
      · rw [Prod.mk.injEq] at h
        rcases h with ⟨h1, h2⟩
        subst h1
        subst h2
        simp [List.lookup]
      · have hk : k ≠ k0 := by
          intro hkk
          subst hkk
          exact hnd2.1 (List.mem_map.mpr ⟨(k, v), h, rfl⟩)
        rw [List.lookup_cons]
        have hbeq : (k == k0) = false := beq_false_of_ne hk
        rw [hbeq]
        exact ih hnd2.2 h

theorem dictGet_eq {rec : List (String × Value)} {k : String} {v : Value}
    (hnd : (rec.map Prod.fst).Nodup) (hm : (k, v) ∈ rec) :
    dictGet rec k = v := by
  have h1 : rec.reverse.lookup k = Option.some v := by
    apply lookup_eq_of_mem
    · rw [List.map_reverse]
      exact List.nodup_reverse.mpr hnd
    · exact List.mem_reverse.mpr hm
  simp [dictGet, h1]

/-- C6: across a sequence of get-statistics calls the class-level
stats_type is pinned by the first call — it becomes the namedtuple built
from the field names of the first reply — and every later call leaves it
untouched and instantiates exactly that stored type (the first call
itself instantiating the type it just pinned); every structure a call
returns pairs each field name of that call's reply with the value the
reply pairs it with. -/
theorem c6_statistics_shape_memoized (r0 rec : List (String × Value))
    (fields : List String) (h0 : (r0.map Prod.fst).Nodup) :
    (get_statistics_call Option.none r0).1 = Option.some (r0.map Prod.fst) ∧
    (get_statistics_call (Option.some fields) rec).1 = Option.some fields ∧
    (get_statistics_call Option.none r0).2 =
      (get_statistics_call (Option.some (r0.map Prod.fst)) r0).2 ∧
    (∀ s, (rec.map Prod.fst).Nodup →
      (get_statistics_call (Option.some fields) rec).2 = Except.ok s →
      ∀ k v, (k, v) ∈ rec → (k, v) ∈ s) := by
  refine ⟨?_, rfl, ?_, ?_⟩
  · simp [get_statistics_call, namedtupleMake, h0]
  · simp [get_statistics_call, namedtupleMake, h0]
  · intro s hnd hok k v hm
    by_cases hkw : kwMatch fields rec
    · rw [show (get_statistics_call (Option.some fields) rec).2 =
          namedtupleCall fields rec from rfl] at hok
      rw [namedtupleCall, if_pos hkw] at hok
      have hs : s = fields.map (fun f => (f, dictGet rec f)) :=
        (Except.ok.inj hok).symm
      subst hs
      have hkf : k ∈ fields := by
        have hkw2 := hkw
        rw [kwMatch, Bool.and_eq_true] at hkw2
        have hall := hkw2.2
        rw [List.all_eq_true] at hall
        have hkmem : k ∈ rec.map Prod.fst :=
          List.mem_map.mpr ⟨(k, v), hm, rfl⟩
        have := hall k hkmem
        simpa using this
      refine List.mem_map.mpr ⟨k, hkf, ?_⟩
      rw [dictGet_eq hnd hm]
    · rw [show (get_statistics_call (Option.some fields) rec).2 =
          namedtupleCall fields rec from rfl] at hok
      rw [namedtupleCall, if_neg hkw] at hok
      cases hok

/-- Witness for C6 at the spec's Scenario 3 reply. -/
theorem c6_statistics_shape_memoized_witness :
    (([("downloads_last_month", Value.int 100),
       ("packages_count", Value.int 500)].map Prod.fst).Nodup) ∧
    ((get_statistics_call Option.none
        [("downloads_last_month", Value.int 100),
         ("packages_count", Value.int 500)]).1 =
      Option.some (["downloads_last_month", "packages_count"]) ∧
     (get_statistics_call
        (Option.some ["downloads_last_month", "packages_count"])
        [("downloads_last_month", Value.int 100),
         ("packages_count", Value.int 500)]).1 =
      Option.some ["downloads_last_month", "packages_count"] ∧
     (get_statistics_call Option.none
        [("downloads_last_month", Value.int 100),
         ("packages_count", Value.int 500)]).2 =
      (get_statistics_call
        (Option.some ([("downloads_last_month", Value.int 100),
          ("packages_count", Value.int 500)].map Prod.fst))
        [("downloads_last_month", Value.int 100),
         ("packages_count", Value.int 500)]).2 ∧
     (∀ s, (([("downloads_last_month", Value.int 100),
          ("packages_count", Value.int 500)].map Prod.fst)).Nodup →
       (get_statistics_call
          (Option.some ["downloads_last_month", "packages_count"])
          [("downloads_last_month", Value.int 100),
           ("packages_count", Value.int 500)]).2 = Except.ok s →
       ∀ k v, (k, v) ∈ [("downloads_last_month", Value.int 100),
           ("packages_count", Value.int 500)] → (k, v) ∈ s)) := by
  have h0 : (([("downloads_last_month", Value.int 100),
      ("packages_count", Value.int 500)].map Prod.fst)).Nodup := by
    simp
  exact ⟨h0, c6_statistics_shape_memoized
    [("downloads_last_month", Value.int 100),
     ("packages_count", Value.int 500)]
    [("downloads_last_month", Value.int 100),
     ("packages_count", Value.int 500)]
    ["downloads_last_month", "packages_count"] h0⟩

end Oracle

